import Mathlib

/-!
Shallow embedding of the StelloVault on-chain core (escrow-manager,
loan-management and oracle-adapter contracts) and proofs of the spec's
claims about it.  Addresses are abstract naturals, soroban `Bytes` are
lists of bytes, i128 amounts are `Int` with explicit checked-arithmetic
bounds where the source uses `checked_mul` / `checked_div` / `checked_add`.
Cross-contract replies (oracle confirmation sets, treasury fee query) are
passed in as explicit inputs.  The host reverts the whole invocation on
any error, so an erroring call leaves storage unchanged and produces no
effect; the embedding returns the original store and empty effect lists on
every error path, mirroring both the host semantics and the source's
early returns, which all precede the first storage write.
-/

namespace StelloVault

/-- Addresses are modelled abstractly as natural numbers. -/
abbrev Address := Nat

/-- Soroban `Bytes` values, modelled as lists of bytes. -/
abbrev Bytes := List Nat

/-- Lower bound of `i128`. -/
def i128Min : Int := -(2 ^ 127)

/-- Upper bound of `i128`. -/
def i128Max : Int := 2 ^ 127 - 1

/-- Upper bound of `u64`. -/
def u64Max : Nat := 2 ^ 64 - 1

/-- Rust `i128::checked_mul`: `none` when the exact product leaves the
i128 range. -/
def checked_mul (a b : Int) : Option Int :=
if i128Min ≤ a * b ∧ a * b ≤ i128Max then some (a * b) else none

/-- Rust `i128::checked_div`: truncating division, `none` on a zero
divisor or on the single overflowing case `i128::MIN / -1`. -/
def checked_div (a b : Int) : Option Int :=
if b = 0 then none
else if a = i128Min ∧ b = -1 then none
else some (Int.tdiv a b)

/-- A token transfer effect: token contract, source, destination, amount. -/
structure Transfer where
  asset : Address
  src : Address
  dst : Address
  amount : Int
deriving DecidableEq, Repr

/-- Oracle confirmation record (`ConfirmationData` of the oracle-adapter;
the escrow-manager declares an identical local mirror for cross-contract
deserialization). -/
structure ConfirmationData where
  escrow_id : Bytes
  event_type : Nat
  result : Bytes
  oracle : Address
  timestamp : Nat
  verified : Bool
deriving DecidableEq, Repr

namespace EscrowM

/-- `EscrowStatus` of the escrow-manager. -/
inductive EscrowStatus where
| Active
| Released
| Refunded
deriving DecidableEq, Repr

/-- `ContractError` of the escrow-manager. -/
inductive ContractError where
| Unauthorized
| AlreadyInitialized
| EscrowNotFound
| EscrowNotActive
| InvalidAmount
| ConfirmationNotMet
| EscrowNotExpired
| PathPaymentFailed
| SlippageExceeded
| InvalidOracleSet
| InvalidThreshold
deriving DecidableEq, Repr

/-- The `Escrow` record persisted by the escrow-manager. -/
structure Escrow where
  id : Nat
  buyer : Address
  seller : Address
  lender : Address
  collateral_id : Nat
  amount : Int
  asset : Address
  required_confirmation : Nat
  status : EscrowStatus
  expiry_ts : Nat
  created_at : Nat
  destination_asset : Address
  min_destination_amount : Int
  required_confirmations : Nat
  oracle_set : List Address
deriving DecidableEq, Repr

/-- Persistent storage of the escrow-manager, keyed by escrow id. -/
abbrev EscrowStore := Nat → Option Escrow

/-- External inputs consumed by `release_funds_on_confirmation` on an
initialized contract: the oracle-adapter `get_confirmation` reply, the
stored test exchange rate, the configured treasury and its `get_fee_bps`
reply, and the contract address itself. -/
structure ReleaseEnv where
  confirmations : Option (List ConfirmationData)
  test_rate : Option Int
  treasury : Option Address
  fee_bps : Nat
  self_addr : Address

/-- Outcome of one escrow-manager invocation: returned value, the escrow
store after the call, and the call's external effects (token transfers,
the ignored `try_transfer_from`, path-payment events, `deposit_fee` calls
to the treasury, fee events, `unlock_collateral` calls).  On error the
host reverts: the store is the original one and every effect list is
empty. -/
structure StepResult where
  res : Except ContractError Unit
  escrows : EscrowStore
  transfers : List Transfer
  try_transfers : List Transfer
  path_events : List (Nat × Int × Int)
  fee_calls : List (Address × Int)
  fee_events : List (Nat × Int × Address)
  unlocked : List Nat

/-- An erroring (hence fully reverted) invocation. -/
def errResult (st : EscrowStore) (e : ContractError) : StepResult :=
{ res := Except.error e, escrows := st, transfers := [], try_transfers := [],
  path_events := [], fee_calls := [], fee_events := [], unlocked := [] }

/-- The confirmation check of `release_funds_on_confirmation`: some entry
of the oracle reply has the required event type and is verified; an
absent reply counts as not confirmed. -/
def confirmation_met (confirmations : Option (List ConfirmationData)) (required : Nat) : Bool :=
match confirmations with
| some confs => confs.any fun conf => conf.event_type == required && conf.verified
| none => false

/-- `EscrowManager::estimate_path_payment`: destination estimate
`source_amount * rate / 1_000_000` in checked i128 arithmetic, where the
stored test rate defaults to `1_000_000` (a 1:1 ratio, 6-decimal
fixed-point). -/
def estimate_path_payment (test_rate : Option Int) (source_amount : Int) :
    Except ContractError Int :=
let exchange_rate : Int := test_rate.getD 1000000
match checked_mul source_amount exchange_rate with
| none => Except.error ContractError.PathPaymentFailed
| some v =>
  match checked_div v 1000000 with
  | none => Except.error ContractError.PathPaymentFailed
  | some d => Except.ok d

/-- Fee step of `release_funds_on_confirmation`: when a treasury is
configured, `fee_amount = amount * fee_bps / 10000` (truncating); a
positive fee is recorded by a `deposit_fee` call on the treasury and a
fee event, and is never deducted from the payment itself.  Returns the
`deposit_fee` calls and fee events. -/
def fee_step (escrow : Escrow) (escrow_id : Nat) (treasury : Option Address) (fee_bps : Nat) :
    List (Address × Int) × List (Nat × Int × Address) :=
match treasury with
| some _ =>
  let fee_amount : Int := Int.tdiv (escrow.amount * (fee_bps : Int)) 10000
  if fee_amount > 0 then ([(escrow.asset, fee_amount)], [(escrow_id, fee_amount, escrow.asset)])
  else ([], [])
| none => ([], [])

/-- `EscrowManager::release_funds_on_confirmation`, shallowly embedded.
Loads the escrow, requires `Active`, requires a matching verified
confirmation, pays the seller (directly for same-asset, or after the
slippage gate for cross-asset, where the source amount is transferred
with no actual conversion), runs the fee step, unlocks the collateral and
sets the status to `Released`. -/
def release_funds_on_confirmation (st : EscrowStore) (env : ReleaseEnv) (escrow_id : Nat) :
    StepResult :=
match st escrow_id with
| none => errResult st ContractError.EscrowNotFound
| some escrow =>
  if escrow.status ≠ EscrowStatus.Active then errResult st ContractError.EscrowNotActive
  else if confirmation_met env.confirmations escrow.required_confirmation = false then
    errResult st ContractError.ConfirmationNotMet
  else
    let payment : Except ContractError (List Transfer × List Transfer × List (Nat × Int × Int)) :=
      if escrow.asset = escrow.destination_asset then
        Except.ok ([Transfer.mk escrow.asset env.self_addr escrow.seller escrow.amount], [], [])
      else
        match estimate_path_payment env.test_rate escrow.amount with
        | Except.error e => Except.error e
        | Except.ok est =>
          if est < escrow.min_destination_amount then Except.error ContractError.SlippageExceeded
          else
            Except.ok ([Transfer.mk escrow.asset env.self_addr escrow.seller escrow.amount],
              [Transfer.mk escrow.asset env.self_addr escrow.seller escrow.amount],
              [(escrow_id, escrow.amount, est)])
    match payment with
    | Except.error e => errResult st e
    | Except.ok trio =>
      let fees := fee_step escrow escrow_id env.treasury env.fee_bps
      { res := Except.ok ()
        escrows := fun k =>
          if k = escrow_id then some { escrow with status := EscrowStatus.Released } else st k
        transfers := trio.1
        try_transfers := trio.2.1
        path_events := trio.2.2
        fee_calls := fees.1
        fee_events := fees.2
        unlocked := [escrow.collateral_id] }

/-- `EscrowManager::refund_escrow`, shallowly embedded; `now` is the
ledger timestamp.  Requires `Active` and `now > expiry_ts`, then refunds
the full amount to the lender, unlocks the collateral and sets the status
to `Refunded`. -/
def refund_escrow (st : EscrowStore) (self_addr : Address) (now : Nat) (escrow_id : Nat) :
    StepResult :=
match st escrow_id with
| none => errResult st ContractError.EscrowNotFound
| some escrow =>
  if escrow.status ≠ EscrowStatus.Active then errResult st ContractError.EscrowNotActive
  else if now ≤ escrow.expiry_ts then errResult st ContractError.EscrowNotExpired
  else
    { res := Except.ok ()
      escrows := fun k =>
        if k = escrow_id then some { escrow with status := EscrowStatus.Refunded } else st k
      transfers := [Transfer.mk escrow.asset self_addr escrow.lender escrow.amount]
      try_transfers := []
      path_events := []
      fee_calls := []
      fee_events := []
      unlocked := [escrow.collateral_id] }

end EscrowM

namespace LoanM

/-- `LoanStatus` of the loan-management contract. -/
inductive LoanStatus where
| Active
| Repaid
| Defaulted
| Liquidated
deriving DecidableEq, Repr

/-- `ContractError` of the loan-management contract. -/
inductive ContractError where
| Unauthorized
| AlreadyInitialized
| LoanNotFound
| LoanAlreadyIssued
| LoanNotActive
| DeadlineNotPassed
| DeadlinePassed
| InsufficientAmount
deriving DecidableEq, Repr

/-- The `Loan` record persisted by the loan-management contract. -/
structure Loan where
  id : Nat
  escrow_id : Nat
  borrower : Address
  lender : Address
  amount : Int
  interest_rate : Nat
  deadline : Nat
  status : LoanStatus
deriving DecidableEq, Repr

/-- Persistent storage of the loan-management contract: loans by id, the
escrow-to-loan reverse index, and the id counter (read with default 1
when unset, as `get(next_id).unwrap_or(1)`). -/
structure LoanState where
  loans : Nat → Option Loan
  escrow_index : Nat → Option Nat
  next_id : Option Nat

/-- `LoanManagement::issue_loan`, shallowly embedded (lender
authorization is checked by the host and outside the embedding).
Rejects a second loan for the same escrow via the reverse index, computes
`deadline = now + duration` with `checked_add` (overflow reported as
`LoanNotActive` per the source's `ok_or`), and persists the loan together
with the reverse-index entry. -/
def issue_loan (st : LoanState) (escrow_id : Nat) (borrower lender : Address)
    (amount : Int) (interest_rate : Nat) (duration : Nat) (now : Nat) :
    Except ContractError Nat × LoanState :=
if (st.escrow_index escrow_id).isSome then (Except.error ContractError.LoanAlreadyIssued, st)
else
  let loan_id := st.next_id.getD 1
  if u64Max < now + duration then (Except.error ContractError.LoanNotActive, st)
  else
    let loan : Loan :=
      { id := loan_id, escrow_id := escrow_id, borrower := borrower, lender := lender,
        amount := amount, interest_rate := interest_rate, deadline := now + duration,
        status := LoanStatus.Active }
    (Except.ok loan_id,
      { loans := fun k => if k = loan_id then some loan else st.loans k
        escrow_index := fun k => if k = escrow_id then some loan_id else st.escrow_index k
        next_id := some (loan_id + 1) })

/-- `LoanManagement::repay_loan`, shallowly embedded (borrower
authorization is host-checked).  Requires `Active` and
`now <= deadline`, computes `total_due = amount + amount * rate / 10000`
in truncating integer arithmetic and requires the paid amount to reach
it, then sets the status to `Repaid`. -/
def repay_loan (st : LoanState) (now : Nat) (loan_id : Nat) (amount : Int) :
    Except ContractError Unit × LoanState :=
match st.loans loan_id with
| none => (Except.error ContractError.LoanNotFound, st)
| some loan =>
  if loan.status ≠ LoanStatus.Active then (Except.error ContractError.LoanNotActive, st)
  else if loan.deadline < now then (Except.error ContractError.DeadlinePassed, st)
  else
    let interest : Int := Int.tdiv (loan.amount * (loan.interest_rate : Int)) 10000
    let total_due : Int := loan.amount + interest
    if amount < total_due then (Except.error ContractError.InsufficientAmount, st)
    else
      (Except.ok (),
        { st with loans := fun k =>
            if k = loan_id then some { loan with status := LoanStatus.Repaid } else st.loans k })

end LoanM

namespace OracleM

/-- `ContractError` of the oracle-adapter. -/
inductive ContractError where
| Unauthorized
| AlreadyInitialized
| OracleNotRegistered
| OracleAlreadyRegistered
| InvalidSignature
| ConfirmationAlreadyExists
| EscrowNotFound
| InvalidEventType
deriving DecidableEq, Repr

/-- Oracle-adapter state: the admin, the ordered list of registered
oracles, and the persistent confirmation store keyed by the composite
(escrow id bytes, oracle) key. -/
structure OracleState where
  admin : Address
  oracles : List Address
  confs : Bytes → Address → Option ConfirmationData

/-- `OracleAdapter::confirm_event`, shallowly embedded.  `invoker` is the
calling oracle and `sig_ok` the outcome of the ed25519 verification of
the canonical message.  Requires a registered caller, an event type in
1..4, an absent composite key (replay protection) and a valid signature,
then stores a `ConfirmationData` with `verified = true`. -/
def confirm_event (st : OracleState) (invoker : Address) (escrow_id : Bytes)
    (event_type : Nat) (result : Bytes) (sig_ok : Bool) (now : Nat) :
    Except ContractError Unit × OracleState :=
if invoker ∉ st.oracles then (Except.error ContractError.OracleNotRegistered, st)
else if event_type < 1 ∨ 4 < event_type then (Except.error ContractError.InvalidEventType, st)
else if (st.confs escrow_id invoker).isSome then
  (Except.error ContractError.ConfirmationAlreadyExists, st)
else if sig_ok = false then (Except.error ContractError.InvalidSignature, st)
else
  let confirmation : ConfirmationData :=
    { escrow_id := escrow_id, event_type := event_type, result := result,
      oracle := invoker, timestamp := now, verified := true }
  (Except.ok (),
    { st with confs := fun eid o =>
        if eid = escrow_id ∧ o = invoker then some confirmation else st.confs eid o })

/-- `OracleAdapter::remove_oracle`, shallowly embedded: admin-gated; the
source loop keeps every registered oracle different from the removed one
and fails `OracleNotRegistered` when none matched; the confirmation store
is not touched. -/
def remove_oracle (st : OracleState) (invoker : Address) (oracle : Address) :
    Except ContractError Unit × OracleState :=
if invoker ≠ st.admin then (Except.error ContractError.Unauthorized, st)
else if oracle ∉ st.oracles then (Except.error ContractError.OracleNotRegistered, st)
else (Except.ok (), { st with oracles := st.oracles.filter (fun o => o != oracle) })

/-- `OracleAdapter::get_confirmation`: scans the currently registered
oracles in order, collects their stored confirmations for the escrow id,
and returns `none` when the collected list is empty. -/
def get_confirmation (st : OracleState) (escrow_id : Bytes) :
    Option (List ConfirmationData) :=
let confirmations := st.oracles.filterMap fun o => st.confs escrow_id o
if confirmations.isEmpty then none else some confirmations

end OracleM

/-! ## Helper lemmas -/

/-- The boolean confirmation check agrees with the existential reading:
some returned entry matches the required event type and is verified. -/
theorem confirmation_met_iff (cs : Option (List ConfirmationData)) (r : Nat) :
    EscrowM.confirmation_met cs r = true ↔
      ∃ confs, cs = some confs ∧
        ∃ c ∈ confs, c.event_type = r ∧ c.verified = true := by
  cases cs with
  | none => simp [EscrowM.confirmation_met]
  | some confs =>
    simp [EscrowM.confirmation_met, List.any_eq_true, Bool.and_eq_true, beq_iff_eq]

/-! ## Concrete sample data for the witnesses -/

/-- A sample active escrow (the amounts of the spec's scenarios). -/
def sampleEscrow : EscrowM.Escrow :=
{ id := 1, buyer := 11, seller := 12, lender := 13, collateral_id := 3, amount := 5000,
  asset := 21, required_confirmation := 2, status := EscrowM.EscrowStatus.Active,
  expiry_ts := 1000, created_at := 0, destination_asset := 21,
  min_destination_amount := 5000, required_confirmations := 0, oracle_set := [] }

/-- The sample escrow after a release. -/
def sampleReleased : EscrowM.Escrow :=
{ sampleEscrow with status := EscrowM.EscrowStatus.Released }

/-- A store holding the released sample escrow under id 1. -/
def sampleStoreReleased : EscrowM.EscrowStore :=
fun k => if k = 1 then some sampleReleased else none

/-- A release environment with no confirmations and no treasury. -/
def sampleEnv : EscrowM.ReleaseEnv :=
{ confirmations := none, test_rate := none, treasury := none, fee_bps := 0, self_addr := 99 }

/-- A store holding the active sample escrow under id 1. -/
def sampleStoreActive : EscrowM.EscrowStore :=
fun k => if k = 1 then some sampleEscrow else none

/-- A verified confirmation matching the sample escrow's required event
type (2 = Delivery). -/
def sampleConf : ConfirmationData :=
{ escrow_id := [0, 0, 0, 0, 0, 0, 0, 1], event_type := 2, result := [1], oracle := 7,
  timestamp := 5, verified := true }

/-- A release environment whose oracle reply holds the matching verified
confirmation. -/
def sampleEnvConfirmed : EscrowM.ReleaseEnv :=
{ confirmations := some [sampleConf], test_rate := none, treasury := none, fee_bps := 0,
  self_addr := 99 }

/-- `estimate_path_payment` fails only with `PathPaymentFailed`. -/
theorem estimate_path_payment_error (tr : Option Int) (a : Int) (e : EscrowM.ContractError)
    (h : EscrowM.estimate_path_payment tr a = Except.error e) :
    e = EscrowM.ContractError.PathPaymentFailed := by
  simp only [EscrowM.estimate_path_payment] at h
  split at h
  · simp_all
  · split at h <;> simp_all

/-! ## Claims -/

/-- Claim C1: once an escrow's status is no longer Active, every call to
release_funds_on_confirmation and to refund_escrow on that id fails with
EscrowNotActive and leaves the escrow store unchanged; and a successful
release or refund moves the status to Released resp. Refunded, so for
each escrow at most one of the two ever succeeds. -/
theorem release_refund_terminal_after_nonactive
    (st : EscrowM.EscrowStore) (env : EscrowM.ReleaseEnv) (self_addr : Address)
    (now escrow_id : Nat) :
    (∀ e, st escrow_id = some e → e.status ≠ EscrowM.EscrowStatus.Active →
      (EscrowM.release_funds_on_confirmation st env escrow_id).res =
          Except.error EscrowM.ContractError.EscrowNotActive ∧
        (EscrowM.release_funds_on_confirmation st env escrow_id).escrows = st ∧
        (EscrowM.refund_escrow st self_addr now escrow_id).res =
          Except.error EscrowM.ContractError.EscrowNotActive ∧
        (EscrowM.refund_escrow st self_addr now escrow_id).escrows = st) ∧
    ((EscrowM.release_funds_on_confirmation st env escrow_id).res = Except.ok () →
      ∃ e, (EscrowM.release_funds_on_confirmation st env escrow_id).escrows escrow_id = some e ∧
        e.status = EscrowM.EscrowStatus.Released) ∧
    ((EscrowM.refund_escrow st self_addr now escrow_id).res = Except.ok () →
      ∃ e, (EscrowM.refund_escrow st self_addr now escrow_id).escrows escrow_id = some e ∧
        e.status = EscrowM.EscrowStatus.Refunded) := by
  refine ⟨?_, ?_, ?_⟩
  · intro e he hna
    simp [EscrowM.release_funds_on_confirmation, EscrowM.refund_escrow, he, hna,
      EscrowM.errResult]
  · simp only [EscrowM.release_funds_on_confirmation]
    cases hst : st escrow_id with
    | none => intro hok; simp [EscrowM.errResult] at hok
    | some e =>
      by_cases hna : e.status ≠ EscrowM.EscrowStatus.Active
      · intro hok; simp [hna, EscrowM.errResult] at hok
      · by_cases hc : EscrowM.confirmation_met env.confirmations e.required_confirmation = false
        · intro hok; simp [hna, hc, EscrowM.errResult] at hok
        · simp only [if_neg hna, if_neg hc]
          split
          · intro hok; simp [EscrowM.errResult] at hok
          · intro _
            exact ⟨{ e with status := EscrowM.EscrowStatus.Released }, by simp, rfl⟩
  · simp only [EscrowM.refund_escrow]
    cases hst : st escrow_id with
    | none => intro hok; simp [EscrowM.errResult] at hok
    | some e =>
      by_cases hna : e.status ≠ EscrowM.EscrowStatus.Active
      · intro hok; simp [hna, EscrowM.errResult] at hok
      · by_cases hexp : now ≤ e.expiry_ts
        · intro hok; simp [hna, hexp, EscrowM.errResult] at hok
        · simp only [if_neg hna, if_neg hexp]
          intro _
          exact ⟨{ e with status := EscrowM.EscrowStatus.Refunded }, by simp, rfl⟩

/-- Concrete witness for C1: a released escrow rejects both calls. -/
theorem release_refund_terminal_after_nonactive_witness :
    sampleStoreReleased 1 = some sampleReleased ∧
    sampleReleased.status ≠ EscrowM.EscrowStatus.Active ∧
    (EscrowM.release_funds_on_confirmation sampleStoreReleased sampleEnv 1).res =
      Except.error EscrowM.ContractError.EscrowNotActive ∧
    (EscrowM.refund_escrow sampleStoreReleased 99 2000 1).res =
      Except.error EscrowM.ContractError.EscrowNotActive :=
  ⟨rfl, by decide,
    ((release_refund_terminal_after_nonactive sampleStoreReleased sampleEnv 99 2000 1).1
        sampleReleased rfl (by decide)).1,
    ((release_refund_terminal_after_nonactive sampleStoreReleased sampleEnv 99 2000 1).1
        sampleReleased rfl (by decide)).2.2.1⟩

/-- Claim C2: for an existing Active escrow, release_funds_on_confirmation
fails with ConfirmationNotMet iff the confirmation set returned by the
oracle-adapter holds no entry whose event_type equals the escrow's
required_confirmation with verified true (an absent or empty reply counts
as not confirmed). -/
theorem release_confirmation_gating
    (st : EscrowM.EscrowStore) (env : EscrowM.ReleaseEnv) (escrow_id : Nat)
    (e : EscrowM.Escrow) (he : st escrow_id = some e)
    (ha : e.status = EscrowM.EscrowStatus.Active) :
    (EscrowM.release_funds_on_confirmation st env escrow_id).res =
        Except.error EscrowM.ContractError.ConfirmationNotMet ↔
      ¬ ∃ confs, env.confirmations = some confs ∧
          ∃ c ∈ confs, c.event_type = e.required_confirmation ∧ c.verified = true := by
  rw [← confirmation_met_iff]
  have hna : ¬ e.status ≠ EscrowM.EscrowStatus.Active := by simp [ha]
  simp only [EscrowM.release_funds_on_confirmation, he, if_neg hna]
  by_cases hc : EscrowM.confirmation_met env.confirmations e.required_confirmation = false
  · simp [hc, EscrowM.errResult]
  · have hct : EscrowM.confirmation_met env.confirmations e.required_confirmation = true := by
      cases h2 : EscrowM.confirmation_met env.confirmations e.required_confirmation
      · exact absurd h2 hc
      · rfl
    simp only [if_neg hc, hct, not_true, iff_false]
    intro hres
    split at hres
    · simp_all
    · split at hres
      · rename_i e2 heq
        have he2 : e2 = EscrowM.ContractError.ConfirmationNotMet := by
          simpa [EscrowM.errResult] using hres
        subst he2
        split at heq
        · simp at heq
        · split at heq
          · rename_i e3 heq3
            have := estimate_path_payment_error _ _ _ heq3
            simp_all
          · rename_i est heq3
            split at heq <;> simp_all
      · simp at hres

/-- Concrete witness for C2: no reply fails ConfirmationNotMet; a
matching verified reply does not. -/
theorem release_confirmation_gating_witness :
    sampleStoreActive 1 = some sampleEscrow ∧
    sampleEscrow.status = EscrowM.EscrowStatus.Active ∧
    (EscrowM.release_funds_on_confirmation sampleStoreActive sampleEnv 1).res =
      Except.error EscrowM.ContractError.ConfirmationNotMet ∧
    (EscrowM.release_funds_on_confirmation sampleStoreActive sampleEnvConfirmed 1).res ≠
      Except.error EscrowM.ContractError.ConfirmationNotMet :=
  ⟨rfl, rfl,
    (release_confirmation_gating sampleStoreActive sampleEnv 1 sampleEscrow rfl rfl).mpr
      (by simp [sampleEnv]),
    fun h =>
      ((release_confirmation_gating sampleStoreActive sampleEnvConfirmed 1 sampleEscrow
          rfl rfl).mp h)
        ⟨[sampleConf], rfl, sampleConf, by simp, by decide, rfl⟩⟩

/-- Claim C3: for an existing Active escrow, refund_escrow fails with
EscrowNotExpired when the ledger timestamp is at most expiry_ts; when it
is strictly greater, the call succeeds, transfers the full amount back to
the lender, unlocks the collateral and sets the status to Refunded. -/
theorem refund_expiry_gating
    (st : EscrowM.EscrowStore) (self_addr : Address) (now escrow_id : Nat)
    (e : EscrowM.Escrow) (he : st escrow_id = some e)
    (ha : e.status = EscrowM.EscrowStatus.Active) :
    (now ≤ e.expiry_ts →
      (EscrowM.refund_escrow st self_addr now escrow_id).res =
          Except.error EscrowM.ContractError.EscrowNotExpired ∧
        (EscrowM.refund_escrow st self_addr now escrow_id).escrows = st) ∧
    (e.expiry_ts < now →
      (EscrowM.refund_escrow st self_addr now escrow_id).res = Except.ok () ∧
        (EscrowM.refund_escrow st self_addr now escrow_id).transfers =
          [Transfer.mk e.asset self_addr e.lender e.amount] ∧
        (EscrowM.refund_escrow st self_addr now escrow_id).unlocked = [e.collateral_id] ∧
        (EscrowM.refund_escrow st self_addr now escrow_id).escrows escrow_id =
          some { e with status := EscrowM.EscrowStatus.Refunded }) := by
  have hna : ¬ e.status ≠ EscrowM.EscrowStatus.Active := by simp [ha]
  constructor
  · intro hexp
    simp [EscrowM.refund_escrow, he, hna, hexp, EscrowM.errResult]
  · intro hexp
    have hn : ¬ now ≤ e.expiry_ts := by omega
    simp [EscrowM.refund_escrow, he, hna, hn]

/-- Concrete witness for C3: refund at 999 ≤ 1000 fails, at 1001 > 1000
succeeds refunding the lender. -/
theorem refund_expiry_gating_witness :
    sampleStoreActive 1 = some sampleEscrow ∧
    sampleEscrow.status = EscrowM.EscrowStatus.Active ∧
    999 ≤ sampleEscrow.expiry_ts ∧
    (EscrowM.refund_escrow sampleStoreActive 99 999 1).res =
      Except.error EscrowM.ContractError.EscrowNotExpired ∧
    sampleEscrow.expiry_ts < 1001 ∧
    (EscrowM.refund_escrow sampleStoreActive 99 1001 1).res = Except.ok () ∧
    (EscrowM.refund_escrow sampleStoreActive 99 1001 1).transfers =
      [Transfer.mk sampleEscrow.asset 99 sampleEscrow.lender sampleEscrow.amount] :=
  ⟨rfl, rfl, by decide,
    ((refund_expiry_gating sampleStoreActive 99 999 1 sampleEscrow rfl rfl).1 (by decide)).1,
    by decide,
    ((refund_expiry_gating sampleStoreActive 99 1001 1 sampleEscrow rfl rfl).2 (by decide)).1,
    ((refund_expiry_gating sampleStoreActive 99 1001 1 sampleEscrow rfl rfl).2 (by decide)).2.1⟩

/-- The sample loan of the spec's interest scenario: amount 1000 at 500
basis points. -/
def sampleLoan : LoanM.Loan :=
{ id := 1, escrow_id := 1, borrower := 31, lender := 13, amount := 1000,
  interest_rate := 500, deadline := 3600, status := LoanM.LoanStatus.Active }

/-- A loan store holding the sample loan under id 1. -/
def sampleLoanState : LoanM.LoanState :=
{ loans := fun k => if k = 1 then some sampleLoan else none,
  escrow_index := fun k => if k = 1 then some 1 else none,
  next_id := some 2 }

/-- Claim C4: for an Active loan repaid while now ≤ deadline, the total
due is amount + amount * interest_rate / 10000 with truncating integer
division; repay_loan fails with InsufficientAmount iff the paid amount is
strictly below the total due, and otherwise succeeds and marks the loan
Repaid. -/
theorem repay_interest_arithmetic
    (st : LoanM.LoanState) (now loan_id : Nat) (paid : Int) (loan : LoanM.Loan)
    (h : st.loans loan_id = some loan) (ha : loan.status = LoanM.LoanStatus.Active)
    (hd : now ≤ loan.deadline) :
    ((LoanM.repay_loan st now loan_id paid).1 =
        Except.error LoanM.ContractError.InsufficientAmount ↔
      paid < loan.amount + Int.tdiv (loan.amount * (loan.interest_rate : Int)) 10000) ∧
    (loan.amount + Int.tdiv (loan.amount * (loan.interest_rate : Int)) 10000 ≤ paid →
      (LoanM.repay_loan st now loan_id paid).1 = Except.ok () ∧
        ((LoanM.repay_loan st now loan_id paid).2).loans loan_id =
          some { loan with status := LoanM.LoanStatus.Repaid }) := by
  have hna : ¬ loan.status ≠ LoanM.LoanStatus.Active := by simp [ha]
  have hdd : ¬ loan.deadline < now := by omega
  constructor
  · by_cases hp : paid < loan.amount + Int.tdiv (loan.amount * (loan.interest_rate : Int)) 10000
    · simp [LoanM.repay_loan, h, hna, hdd, hp]
    · simp [LoanM.repay_loan, h, hna, hdd, hp]
  · intro hp
    have hp2 : ¬ paid <
        loan.amount + Int.tdiv (loan.amount * (loan.interest_rate : Int)) 10000 := by omega
    simp [LoanM.repay_loan, h, hna, hdd, hp2]

/-- Concrete witness for C4: total due 1050; 1049 is rejected, 1050 is
accepted. -/
theorem repay_interest_arithmetic_witness :
    sampleLoanState.loans 1 = some sampleLoan ∧
    sampleLoan.status = LoanM.LoanStatus.Active ∧
    (100 : Nat) ≤ sampleLoan.deadline ∧
    sampleLoan.amount + Int.tdiv (sampleLoan.amount * (sampleLoan.interest_rate : Int)) 10000 =
      1050 ∧
    (LoanM.repay_loan sampleLoanState 100 1 1049).1 =
      Except.error LoanM.ContractError.InsufficientAmount ∧
    (LoanM.repay_loan sampleLoanState 100 1 1050).1 = Except.ok () :=
  ⟨rfl, rfl, by decide, by decide,
    (repay_interest_arithmetic sampleLoanState 100 1 1049 sampleLoan rfl rfl
        (by decide)).1.mpr (by decide),
    ((repay_interest_arithmetic sampleLoanState 100 1 1050 sampleLoan rfl rfl
        (by decide)).2 (by decide)).1⟩

/-- Claim C5: for an Active escrow with distinct source and destination
assets and a matching verified confirmation, release computes
estimated = amount * rate / 1_000_000 with truncating division, with the
rate read from the stored configuration and defaulting to 1_000_000; if
the estimate is below min_destination_amount the call fails with
SlippageExceeded, and otherwise it succeeds and the seller is transferred
the source amount of the source asset. -/
theorem release_cross_asset_slippage
    (st : EscrowM.EscrowStore) (env : EscrowM.ReleaseEnv) (escrow_id : Nat)
    (e : EscrowM.Escrow) (he : st escrow_id = some e)
    (ha : e.status = EscrowM.EscrowStatus.Active)
    (hc : EscrowM.confirmation_met env.confirmations e.required_confirmation = true)
    (hdiff : e.asset ≠ e.destination_asset)
    (hlo : i128Min ≤ e.amount * (env.test_rate.getD 1000000))
    (hhi : e.amount * (env.test_rate.getD 1000000) ≤ i128Max) :
    (Int.tdiv (e.amount * (env.test_rate.getD 1000000)) 1000000 < e.min_destination_amount →
      (EscrowM.release_funds_on_confirmation st env escrow_id).res =
        Except.error EscrowM.ContractError.SlippageExceeded) ∧
    (e.min_destination_amount ≤ Int.tdiv (e.amount * (env.test_rate.getD 1000000)) 1000000 →
      (EscrowM.release_funds_on_confirmation st env escrow_id).res = Except.ok () ∧
        Transfer.mk e.asset env.self_addr e.seller e.amount ∈
          (EscrowM.release_funds_on_confirmation st env escrow_id).transfers) := by
  have hna : ¬ e.status ≠ EscrowM.EscrowStatus.Active := by simp [ha]
  have hcf : ¬ EscrowM.confirmation_met env.confirmations e.required_confirmation = false := by
    simp [hc]
  have hest : EscrowM.estimate_path_payment env.test_rate e.amount =
      Except.ok (Int.tdiv (e.amount * (env.test_rate.getD 1000000)) 1000000) := by
    have h1 : ¬ ((1000000 : Int) = 0) := by norm_num
    have h2 : ¬ (e.amount * (env.test_rate.getD 1000000) = i128Min ∧ (1000000 : Int) = -1) := by
      rintro ⟨-, h3⟩; norm_num at h3
    simp only [EscrowM.estimate_path_payment, checked_mul, checked_div,
      if_pos (And.intro hlo hhi), if_neg h1, if_neg h2]
  constructor
  · intro hslip
    simp [EscrowM.release_funds_on_confirmation, he, hna, hcf, if_neg hdiff, hest, hslip,
      EscrowM.errResult]
  · intro hok
    have hs2 : ¬ Int.tdiv (e.amount * (env.test_rate.getD 1000000)) 1000000 <
        e.min_destination_amount := by omega
    simp [EscrowM.release_funds_on_confirmation, he, hna, hcf, if_neg hdiff, hest, hs2]

/-- The cross-asset sample escrow of the slippage scenario with floor
4800. -/
def crossEscrow : EscrowM.Escrow :=
{ sampleEscrow with destination_asset := 22, min_destination_amount := 4800 }

/-- The cross-asset sample escrow with floor 4500. -/
def crossEscrowLowMin : EscrowM.Escrow :=
{ sampleEscrow with destination_asset := 22, min_destination_amount := 4500 }

/-- A store holding the two cross-asset sample escrows. -/
def crossStore : EscrowM.EscrowStore :=
fun k => if k = 1 then some crossEscrow else if k = 2 then some crossEscrowLowMin else none

/-- A confirmed release environment with stored exchange rate 900_000. -/
def crossEnv : EscrowM.ReleaseEnv :=
{ sampleEnvConfirmed with test_rate := some 900000 }

set_option maxRecDepth 4000 in
/-- Concrete witness for C5: rate 0.9 on amount 5000 estimates 4500,
failing a 4800 floor and passing a 4500 floor. -/
theorem release_cross_asset_slippage_witness :
    crossStore 1 = some crossEscrow ∧
    crossEscrow.status = EscrowM.EscrowStatus.Active ∧
    EscrowM.confirmation_met crossEnv.confirmations crossEscrow.required_confirmation = true ∧
    crossEscrow.asset ≠ crossEscrow.destination_asset ∧
    Int.tdiv (crossEscrow.amount * (crossEnv.test_rate.getD 1000000)) 1000000 = 4500 ∧
    (EscrowM.release_funds_on_confirmation crossStore crossEnv 1).res =
      Except.error EscrowM.ContractError.SlippageExceeded ∧
    (EscrowM.release_funds_on_confirmation crossStore crossEnv 2).res = Except.ok () :=
  ⟨rfl, rfl, by decide, by decide, by decide,
    (release_cross_asset_slippage crossStore crossEnv 1 crossEscrow rfl rfl (by decide)
        (by decide) (by decide) (by decide)).1 (by decide),
    ((release_cross_asset_slippage crossStore crossEnv 2 crossEscrowLowMin rfl rfl (by decide)
        (by decide) (by decide) (by decide)).2 (by decide)).1⟩

/-- Claim C6: with a treasury configured, every successful release
computes fee = amount * fee_bps / 10000 with truncating division; a
positive fee is recorded via a deposit_fee call to the treasury and a fee
event (a non-positive fee is not); the fee is never deducted from the
payment: the seller still receives the full escrow amount. -/
theorem release_fee_reporting
    (st : EscrowM.EscrowStore) (env : EscrowM.ReleaseEnv) (escrow_id : Nat)
    (e : EscrowM.Escrow) (t : Address) (he : st escrow_id = some e)
    (ht : env.treasury = some t)
    (hok : (EscrowM.release_funds_on_confirmation st env escrow_id).res = Except.ok ()) :
    (EscrowM.release_funds_on_confirmation st env escrow_id).fee_calls =
        (if 0 < Int.tdiv (e.amount * (env.fee_bps : Int)) 10000 then
          [(e.asset, Int.tdiv (e.amount * (env.fee_bps : Int)) 10000)]
        else []) ∧
    (EscrowM.release_funds_on_confirmation st env escrow_id).fee_events =
        (if 0 < Int.tdiv (e.amount * (env.fee_bps : Int)) 10000 then
          [(escrow_id, Int.tdiv (e.amount * (env.fee_bps : Int)) 10000, e.asset)]
        else []) ∧
    Transfer.mk e.asset env.self_addr e.seller e.amount ∈
      (EscrowM.release_funds_on_confirmation st env escrow_id).transfers := by
  revert hok
  simp only [EscrowM.release_funds_on_confirmation, he]
  by_cases hna : e.status ≠ EscrowM.EscrowStatus.Active
  · intro hok; simp [hna, EscrowM.errResult] at hok
  · simp only [if_neg hna]
    by_cases hc2 : EscrowM.confirmation_met env.confirmations e.required_confirmation = false
    · intro hok; simp [hc2, EscrowM.errResult] at hok
    · simp only [if_neg hc2]
      split
      · intro hok; simp [EscrowM.errResult] at hok
      · rename_i trio heq
        intro _
        refine ⟨by simp [EscrowM.fee_step, ht, apply_ite],
          by simp [EscrowM.fee_step, ht, apply_ite], ?_⟩
        split at heq
        · injection heq with h4
          simp [← h4]
        · split at heq
          · simp at heq
          · split at heq
            · simp at heq
            · injection heq with h4
              simp [← h4]

/-- A confirmed release environment with treasury 55 and 100 basis
points of fees. -/
def feeEnv : EscrowM.ReleaseEnv :=
{ confirmations := some [sampleConf], test_rate := none, treasury := some 55, fee_bps := 100,
  self_addr := 99 }

/-- Concrete witness for C6: fee 50 on amount 5000 at 100 bps is
recorded while the seller still receives 5000. -/
theorem release_fee_reporting_witness :
    sampleStoreActive 1 = some sampleEscrow ∧
    feeEnv.treasury = some 55 ∧
    (EscrowM.release_funds_on_confirmation sampleStoreActive feeEnv 1).res = Except.ok () ∧
    (EscrowM.release_funds_on_confirmation sampleStoreActive feeEnv 1).fee_calls =
      [(sampleEscrow.asset, 50)] ∧
    Transfer.mk sampleEscrow.asset 99 sampleEscrow.seller sampleEscrow.amount ∈
      (EscrowM.release_funds_on_confirmation sampleStoreActive feeEnv 1).transfers :=
  ⟨rfl, rfl, rfl,
    by
      rw [(release_fee_reporting sampleStoreActive feeEnv 1 sampleEscrow 55 rfl rfl rfl).1]
      decide,
    (release_fee_reporting sampleStoreActive feeEnv 1 sampleEscrow 55 rfl rfl rfl).2.2⟩

/-- Argument bundle of one issue_loan call, for reasoning about call
sequences. -/
structure IssueArgs where
  escrow_id : Nat
  borrower : Address
  lender : Address
  amount : Int
  interest_rate : Nat
  duration : Nat
  now : Nat

/-- The loan-management state after a sequence of issue_loan calls. -/
def run_issues (st : LoanM.LoanState) (calls : List IssueArgs) : LoanM.LoanState :=
calls.foldl
  (fun s a =>
    (LoanM.issue_loan s a.escrow_id a.borrower a.lender a.amount a.interest_rate
        a.duration a.now).2)
  st

/-- An existing reverse-index entry makes issue_loan fail LoanAlreadyIssued
without touching the state. -/
theorem issue_loan_already (st : LoanM.LoanState) (eid : Nat) (b l : Address) (a : Int)
    (r d now : Nat) (h : (st.escrow_index eid).isSome) :
    (LoanM.issue_loan st eid b l a r d now).1 =
        Except.error LoanM.ContractError.LoanAlreadyIssued ∧
      (LoanM.issue_loan st eid b l a r d now).2 = st := by
  simp [LoanM.issue_loan, h]

/-- No issue_loan call ever clears an existing reverse-index entry. -/
theorem issue_index_mono (st : LoanM.LoanState) (eid : Nat)
    (h : (st.escrow_index eid).isSome) (eid2 : Nat) (b l : Address) (a : Int) (r d now : Nat) :
    (((LoanM.issue_loan st eid2 b l a r d now).2).escrow_index eid).isSome := by
  unfold LoanM.issue_loan
  by_cases h1 : (st.escrow_index eid2).isSome
  · simp [h1, h]
  · by_cases h2 : u64Max < now + d
    · simp [h1, h2, h]
    · simp only [h1, h2, Bool.false_eq_true, if_false]
      by_cases heq : eid = eid2 <;> simp [heq, h]

/-- A reverse-index entry survives any sequence of issue_loan calls. -/
theorem run_issues_index_mono (calls : List IssueArgs) (st : LoanM.LoanState) (eid : Nat)
    (h : (st.escrow_index eid).isSome) :
    (((run_issues st calls).escrow_index eid).isSome) := by
  induction calls generalizing st with
  | nil => exact h
  | cons c cs ih =>
    simp only [run_issues, List.foldl_cons]
    exact ih _ (issue_index_mono st eid h _ _ _ _ _ _ _)

/-- Claim C7: at most one loan per escrow — issue_loan fails with
LoanAlreadyIssued whenever the escrow-to-loan reverse-index entry exists
(leaving the state unchanged), a success writes that entry, and the
entry then survives any further issue_loan calls, so every later
issue_loan for the same escrow id fails. -/
theorem issue_loan_unique_per_escrow :
    (∀ st : LoanM.LoanState, ∀ eid : Nat, ∀ b l : Address, ∀ a : Int, ∀ r d now : Nat,
      (st.escrow_index eid).isSome →
        (LoanM.issue_loan st eid b l a r d now).1 =
            Except.error LoanM.ContractError.LoanAlreadyIssued ∧
          (LoanM.issue_loan st eid b l a r d now).2 = st) ∧
    (∀ st : LoanM.LoanState, ∀ eid : Nat, ∀ b l : Address, ∀ a : Int, ∀ r d now loan_id : Nat,
      (LoanM.issue_loan st eid b l a r d now).1 = Except.ok loan_id →
        ((LoanM.issue_loan st eid b l a r d now).2).escrow_index eid = some loan_id) ∧
    (∀ st : LoanM.LoanState, ∀ calls : List IssueArgs, ∀ eid : Nat, ∀ b l : Address,
      ∀ a : Int, ∀ r d now : Nat,
      (st.escrow_index eid).isSome →
        (LoanM.issue_loan (run_issues st calls) eid b l a r d now).1 =
          Except.error LoanM.ContractError.LoanAlreadyIssued) := by
  refine ⟨?_, ?_, ?_⟩
  · intro st eid b l a r d now h
    exact issue_loan_already st eid b l a r d now h
  · intro st eid b l a r d now loan_id hok
    by_cases h1 : (st.escrow_index eid).isSome
    · simp [LoanM.issue_loan, h1] at hok
    · by_cases h2 : u64Max < now + d
      · simp [LoanM.issue_loan, h1, h2] at hok
      · simp only [LoanM.issue_loan, h1, h2, Bool.false_eq_true, if_false] at hok ⊢
        simp only [Except.ok.injEq] at hok
        simp [hok]
  · intro st calls eid b l a r d now h
    exact (issue_loan_already _ eid b l a r d now (run_issues_index_mono calls st eid h)).1

/-- An empty loan-management state. -/
def emptyLoanState : LoanM.LoanState :=
{ loans := fun _ => none, escrow_index := fun _ => none, next_id := none }

/-- Concrete witness for C7: the first loan on escrow 1 succeeds, a
second issue for the same escrow fails. -/
theorem issue_loan_unique_per_escrow_witness :
    (LoanM.issue_loan emptyLoanState 1 31 13 1000 500 3600 0).1 = Except.ok 1 ∧
    (((LoanM.issue_loan emptyLoanState 1 31 13 1000 500 3600 0).2).escrow_index 1).isSome ∧
    (LoanM.issue_loan
        (run_issues (LoanM.issue_loan emptyLoanState 1 31 13 1000 500 3600 0).2 [])
        1 32 14 2000 600 7200 5).1 =
      Except.error LoanM.ContractError.LoanAlreadyIssued :=
  ⟨rfl, rfl,
    issue_loan_unique_per_escrow.2.2 (LoanM.issue_loan emptyLoanState 1 31 13 1000 500 3600 0).2
      [] 1 32 14 2000 600 7200 5 rfl⟩

/-- The big-endian byte key of escrow id 1 used by the oracle samples. -/
def eidBytes : Bytes := [0, 0, 0, 0, 0, 0, 0, 1]

/-- A verified confirmation stored under (eidBytes, oracle 7). -/
def storedConf : ConfirmationData :=
{ escrow_id := eidBytes, event_type := 2, result := [1], oracle := 7, timestamp := 5,
  verified := true }

/-- An oracle-adapter state with admin 0, registered oracle 7, and the
stored sample confirmation. -/
def sampleOracleState : OracleM.OracleState :=
{ admin := 0, oracles := [7],
  confs := fun eid o => if eid = eidBytes ∧ o = 7 then some storedConf else none }

/-- Counterexample to C8 as stated: with a confirmation already stored
for (eidBytes, oracle 7), a second confirm_event by the registered oracle
7 carrying event_type 0 fails with InvalidEventType, not with
ConfirmationAlreadyExists, because the event-type check precedes the
replay check. -/
theorem confirm_event_second_call_cex :
    (sampleOracleState.confs eidBytes 7).isSome ∧
    7 ∈ sampleOracleState.oracles ∧
    (OracleM.confirm_event sampleOracleState 7 eidBytes 0 [] true 9).1 =
      Except.error OracleM.ContractError.InvalidEventType ∧
    OracleM.ContractError.InvalidEventType ≠
      OracleM.ContractError.ConfirmationAlreadyExists :=
  ⟨rfl, by decide, rfl, by decide⟩

/-- Claim C8 (amended): confirm_event succeeds at most once per
(escrow_id, oracle): once a confirmation is stored under the composite
key, any further confirm_event call by that oracle for that escrow id
leaves the state unchanged — so the first success's ConfirmationData,
stored with verified = true, is never overwritten — and it fails with
ConfirmationAlreadyExists whenever the caller is registered and the
event_type argument is valid (1..4); a call failing an earlier guard
fails with OracleNotRegistered or InvalidEventType instead. -/
theorem confirm_event_write_once
    (st : OracleM.OracleState) (invoker : Address) (eid : Bytes) (et : Nat)
    (res : Bytes) (sig : Bool) (now : Nat) :
    ((st.confs eid invoker).isSome →
      (OracleM.confirm_event st invoker eid et res sig now).2 = st ∧
        (invoker ∈ st.oracles → 1 ≤ et → et ≤ 4 →
          (OracleM.confirm_event st invoker eid et res sig now).1 =
            Except.error OracleM.ContractError.ConfirmationAlreadyExists)) ∧
    ((OracleM.confirm_event st invoker eid et res sig now).1 = Except.ok () →
      ∃ cd, ((OracleM.confirm_event st invoker eid et res sig now).2).confs eid invoker =
          some cd ∧ cd.verified = true) := by
  constructor
  · intro h
    constructor
    · unfold OracleM.confirm_event
      split
      · rfl
      · split
        · rfl
        · simp [h]
    · intro hmem h1 h4
      have hreg : ¬ invoker ∉ st.oracles := by simp [hmem]
      simp only [OracleM.confirm_event, if_neg hreg]
      split
      · rename_i hbad; omega
      · simp [h]
  · unfold OracleM.confirm_event
    split
    · intro hok; simp at hok
    · split
      · intro hok; simp at hok
      · split
        · intro hok; simp at hok
        · split
          · intro hok; simp at hok
          · intro _
            refine ⟨⟨eid, et, res, invoker, now, true⟩, ?_, rfl⟩
            simp

/-- Concrete witness for the amended C8: a replay by registered oracle 7
with a valid event type fails ConfirmationAlreadyExists and leaves the
state unchanged. -/
theorem confirm_event_write_once_witness :
    (sampleOracleState.confs eidBytes 7).isSome ∧
    7 ∈ sampleOracleState.oracles ∧
    (OracleM.confirm_event sampleOracleState 7 eidBytes 2 [1] true 9).1 =
      Except.error OracleM.ContractError.ConfirmationAlreadyExists ∧
    (OracleM.confirm_event sampleOracleState 7 eidBytes 2 [1] true 9).2 = sampleOracleState :=
  ⟨rfl, by decide,
    ((confirm_event_write_once sampleOracleState 7 eidBytes 2 [1] true 9).1 rfl).2 (by decide)
      (by decide) (by decide),
    ((confirm_event_write_once sampleOracleState 7 eidBytes 2 [1] true 9).1 rfl).1⟩

/-- Claim C9: get_confirmation only returns confirmations of currently
registered oracles; remove_oracle keeps the confirmation store intact but
excludes the removed oracle's entry from the result (None when no
remaining registered oracle holds one), so a release consuming that
reply fails ConfirmationNotMet even though a stored verified matching
confirmation persists. -/
theorem get_confirmation_only_registered :
    (∀ st : OracleM.OracleState, ∀ eid : Bytes, ∀ cs : List ConfirmationData,
      OracleM.get_confirmation st eid = some cs →
        ∀ c ∈ cs, ∃ o ∈ st.oracles, st.confs eid o = some c) ∧
    (∀ st : OracleM.OracleState, ∀ invoker o : Address, ∀ eid : Bytes,
      invoker = st.admin → o ∈ st.oracles →
        (OracleM.remove_oracle st invoker o).1 = Except.ok () ∧
          ((OracleM.remove_oracle st invoker o).2).confs = st.confs ∧
          ((∀ o2 ∈ st.oracles, o2 ≠ o → st.confs eid o2 = none) →
            OracleM.get_confirmation (OracleM.remove_oracle st invoker o).2 eid = none)) ∧
    (∀ est : EscrowM.EscrowStore, ∀ env : EscrowM.ReleaseEnv, ∀ escrow_id : Nat,
      ∀ e : EscrowM.Escrow, est escrow_id = some e →
        e.status = EscrowM.EscrowStatus.Active → env.confirmations = none →
        (EscrowM.release_funds_on_confirmation est env escrow_id).res =
          Except.error EscrowM.ContractError.ConfirmationNotMet) := by
  refine ⟨?_, ?_, ?_⟩
  · intro st eid cs h c hc
    simp only [OracleM.get_confirmation] at h
    split at h
    · simp at h
    · simp only [Option.some.injEq] at h
      subst h
      rcases List.mem_filterMap.mp hc with ⟨o, ho, hco⟩
      exact ⟨o, ho, hco⟩
  · intro st invoker o eid hadm hmem
    have h1 : ¬ invoker ≠ st.admin := by simp [hadm]
    have h2 : ¬ o ∉ st.oracles := by simp [hmem]
    refine ⟨by simp [OracleM.remove_oracle, h1, h2],
      by simp [OracleM.remove_oracle, h1, h2], ?_⟩
    intro hnone
    have hemp : (st.oracles.filter (fun x => x != o)).filterMap
        (fun o2 => st.confs eid o2) = [] := by
      rw [List.filterMap_eq_nil_iff]
      intro a ha
      rcases List.mem_filter.mp ha with ⟨hmem2, hne⟩
      exact hnone a hmem2 (by simpa using hne)
    simp [OracleM.remove_oracle, h1, h2, OracleM.get_confirmation, hemp]
  · intro est env escrow_id e he ha hc
    have hna : ¬ e.status ≠ EscrowM.EscrowStatus.Active := by simp [ha]
    have hcm : EscrowM.confirmation_met env.confirmations e.required_confirmation = false := by
      simp [EscrowM.confirmation_met, hc]
    simp [EscrowM.release_funds_on_confirmation, he, hna, hcm, EscrowM.errResult]

/-- The oracle-adapter state after the admin removes oracle 7. -/
def removedState : OracleM.OracleState := (OracleM.remove_oracle sampleOracleState 0 7).2

/-- A release environment consuming the post-removal oracle reply. -/
def envAfterRemoval : EscrowM.ReleaseEnv :=
{ confirmations := OracleM.get_confirmation removedState eidBytes, test_rate := none,
  treasury := none, fee_bps := 0, self_addr := 99 }

/-- Concrete witness for C9: after removing oracle 7, its stored verified
matching confirmation is invisible to get_confirmation and the release
fails ConfirmationNotMet. -/
theorem get_confirmation_only_registered_witness :
    sampleOracleState.confs eidBytes 7 = some storedConf ∧
    storedConf.verified = true ∧
    storedConf.event_type = sampleEscrow.required_confirmation ∧
    (OracleM.remove_oracle sampleOracleState 0 7).1 = Except.ok () ∧
    removedState.confs eidBytes 7 = some storedConf ∧
    OracleM.get_confirmation removedState eidBytes = none ∧
    (EscrowM.release_funds_on_confirmation sampleStoreActive envAfterRemoval 1).res =
      Except.error EscrowM.ContractError.ConfirmationNotMet :=
  ⟨rfl, rfl, rfl,
    ((get_confirmation_only_registered.2.1 sampleOracleState 0 7 eidBytes rfl (by decide)).1),
    rfl,
    ((get_confirmation_only_registered.2.1 sampleOracleState 0 7 eidBytes rfl (by decide)).2.2
      (by decide)),
    (get_confirmation_only_registered.2.2 sampleStoreActive envAfterRemoval 1 sampleEscrow
      rfl rfl rfl)⟩

/-- Claim C10: a successful release or refund rewrites the target escrow
as the old record with only the status field changed, and leaves the
stored record of every other escrow id unchanged. -/
theorem release_refund_frame
    (st : EscrowM.EscrowStore) (env : EscrowM.ReleaseEnv) (self_addr : Address)
    (now escrow_id : Nat) (e : EscrowM.Escrow) (he : st escrow_id = some e) :
    ((EscrowM.release_funds_on_confirmation st env escrow_id).res = Except.ok () →
      (EscrowM.release_funds_on_confirmation st env escrow_id).escrows escrow_id =
          some { e with status := EscrowM.EscrowStatus.Released } ∧
        ∀ j, j ≠ escrow_id →
          (EscrowM.release_funds_on_confirmation st env escrow_id).escrows j = st j) ∧
    ((EscrowM.refund_escrow st self_addr now escrow_id).res = Except.ok () →
      (EscrowM.refund_escrow st self_addr now escrow_id).escrows escrow_id =
          some { e with status := EscrowM.EscrowStatus.Refunded } ∧
        ∀ j, j ≠ escrow_id →
          (EscrowM.refund_escrow st self_addr now escrow_id).escrows j = st j) := by
  constructor
  · simp only [EscrowM.release_funds_on_confirmation, he]
    by_cases hna : e.status ≠ EscrowM.EscrowStatus.Active
    · intro hok; simp [hna, EscrowM.errResult] at hok
    · simp only [if_neg hna]
      by_cases hc : EscrowM.confirmation_met env.confirmations e.required_confirmation = false
      · intro hok; simp [hc, EscrowM.errResult] at hok
      · simp only [if_neg hc]
        split
        · intro hok; simp [EscrowM.errResult] at hok
        · intro _
          exact ⟨by simp, fun j hj => by simp [hj]⟩
  · simp only [EscrowM.refund_escrow, he]
    by_cases hna : e.status ≠ EscrowM.EscrowStatus.Active
    · intro hok; simp [hna, EscrowM.errResult] at hok
    · by_cases hexp : now ≤ e.expiry_ts
      · intro hok; simp [hna, hexp, EscrowM.errResult] at hok
      · simp only [if_neg hna, if_neg hexp]
        intro _
        exact ⟨by simp, fun j hj => by simp [hj]⟩

/-- Concrete witness for C10: only the status changes under id 1, id 2
is untouched. -/
theorem release_refund_frame_witness :
    sampleStoreActive 1 = some sampleEscrow ∧
    (EscrowM.release_funds_on_confirmation sampleStoreActive sampleEnvConfirmed 1).res =
      Except.ok () ∧
    (EscrowM.release_funds_on_confirmation sampleStoreActive sampleEnvConfirmed 1).escrows 1 =
      some { sampleEscrow with status := EscrowM.EscrowStatus.Released } ∧
    (EscrowM.release_funds_on_confirmation sampleStoreActive sampleEnvConfirmed 1).escrows 2 =
      sampleStoreActive 2 ∧
    (EscrowM.refund_escrow sampleStoreActive 99 1001 1).escrows 1 =
      some { sampleEscrow with status := EscrowM.EscrowStatus.Refunded } :=
  ⟨rfl, rfl,
    ((release_refund_frame sampleStoreActive sampleEnvConfirmed 99 1001 1 sampleEscrow
        rfl).1 rfl).1,
    ((release_refund_frame sampleStoreActive sampleEnvConfirmed 99 1001 1 sampleEscrow
        rfl).1 rfl).2 2 (by decide),
    ((release_refund_frame sampleStoreActive sampleEnvConfirmed 99 1001 1 sampleEscrow
        rfl).2 rfl).1⟩

end StelloVault
